import Mathlib

/-!
Shallow embedding of the request-normalization, provider-adapter and
transport-retry core of the ai-providers repository, together with proofs
of the specification claims about it.

Conventions of the embedding:
* Go `float64` temperatures are modelled as `Rat`: the code only compares
  temperatures against constants and copies them, never performs rounding
  arithmetic on them, so rational semantics coincide with float semantics
  on every code path modelled here.
* Go pointers used as optional fields (`*float64`, `*int`) are `Option`.
* Go `ProviderType` is a string type; it is modelled as `String` so that
  the `default` branches of the provider switches are preserved.
* Fallible Go functions returning `error` are modelled with `Except String`
  (the string is the error message) or with explicit result inductives.
* The blank test `strings.TrimSpace(s) == ""` is modelled as "every
  character of `s` is whitespace", which is the same predicate.
-/

namespace AIProviders

/-- Whether `pat` is an initial segment of `s` (on character lists). -/
def charsStartWith : List Char → List Char → Bool
  | [], _ => true
  | _ :: _, [] => false
  | p :: ps, c :: cs => p == c && charsStartWith ps cs

/-- Whether `pat` occurs contiguously anywhere inside `s` (character lists). -/
def charsContain (s pat : List Char) : Bool :=
  match s with
  | [] => pat.isEmpty
  | _ :: rest => charsStartWith pat s || charsContain rest pat

/-- Occurrence test for a pattern inside a string, mirroring Go's
`strings.Contains`. -/
def strContains (s pat : String) : Bool :=
  charsContain s.data pat.data

/-- Go's blank test `strings.TrimSpace(s) == ""`: true iff every character
of `s` is whitespace. -/
def isBlankStr (s : String) : Bool :=
  s.data.all Char.isWhitespace

/-- `types.Message`: one message of a chat conversation. -/
structure Message where
  role : String
  content : String
deriving Repr, DecidableEq

/-- `types.CompletionRequest`. -/
structure CompletionRequest where
  prompt : String
  temperature : Option Rat
  maxTokens : Option Int
  stop : List String
  stream : Bool
deriving Repr, DecidableEq

/-- `types.ChatRequest`. -/
structure ChatRequest where
  messages : List Message
  temperature : Option Rat
  maxTokens : Option Int
  stream : Bool
deriving Repr, DecidableEq

/-- `types.Config` (the `APIKey`/`BaseURL` fields are kept for fidelity;
`Timeout` is in nanoseconds as Go's `time.Duration`). -/
structure Config where
  apiKey : String
  baseURL : String
  timeout : Int
  maxRetries : Int
  temperature : Option Rat
  maxTokens : Option Int
deriving Repr, DecidableEq

/-- `types.ProviderType` constant `ProviderOpenAI`. -/
def ProviderOpenAI : String := "openai"

/-- `types.ProviderType` constant `ProviderAnthropic`. -/
def ProviderAnthropic : String := "anthropic"

/-- `types.ProviderType` constant `ProviderGoogle`. -/
def ProviderGoogle : String := "google"

/-- `utils.GetProviderTokenLimit`. -/
def GetProviderTokenLimit (provider : String) : Int :=
  if provider = ProviderOpenAI then 4096
  else if provider = ProviderAnthropic then 100000
  else if provider = ProviderGoogle then 8192
  else 4096

/-- `utils.GetProviderMaxTemperature`. -/
def GetProviderMaxTemperature (provider : String) : Rat :=
  if provider = ProviderOpenAI then 2
  else if provider = ProviderAnthropic then 1
  else if provider = ProviderGoogle then 1
  else 1

/-- `utils.GetProviderMaxStopSequences`. -/
def GetProviderMaxStopSequences (provider : String) : Nat :=
  if provider = ProviderOpenAI then 4
  else if provider = ProviderAnthropic then 10
  else if provider = ProviderGoogle then 5
  else 4

/-- `utils.GetDefaultMaxTokens`. -/
def GetDefaultMaxTokens (provider : String) : Int :=
  if provider = ProviderOpenAI then 1024
  else if provider = ProviderAnthropic then 1024
  else if provider = ProviderGoogle then 1024
  else 1024

/-- `utils.ValidateCompletionRequest`: basic structural validation. -/
def ValidateCompletionRequest (req : CompletionRequest) : Except String Unit := do
  if isBlankStr req.prompt then
    throw "prompt is required and cannot be empty"
  match req.temperature with
  | some temp =>
      if temp < 0 then
        throw ("temperature must be non-negative, got: " ++ toString temp)
  | none => pure ()
  match req.maxTokens with
  | some tokens =>
      if tokens ≤ 0 then
        throw ("max_tokens must be positive, got: " ++ toString tokens)
  | none => pure ()

/-- `utils.ValidateMessage`: validation of a single chat message. -/
def ValidateMessage (msg : Message) (index : Nat) : Except String Unit := do
  if isBlankStr msg.role then
    throw ("message " ++ toString index ++ ": role is required")
  if isBlankStr msg.content then
    throw ("message " ++ toString index ++ ": content is required")
  if msg.role = "user" ∨ msg.role = "assistant" ∨ msg.role = "system" then
    pure ()
  else
    throw ("message " ++ toString index ++ ": invalid role, must be one of: user, assistant, system")

/-- Helper for the indexed loop of `ValidateChatRequest` over the messages. -/
def validateMessagesFrom (msgs : List Message) (index : Nat) : Except String Unit :=
  match msgs with
  | [] => pure ()
  | msg :: rest => do
      ValidateMessage msg index
      validateMessagesFrom rest (index + 1)

/-- `utils.ValidateChatRequest`: basic structural validation of a chat request. -/
def ValidateChatRequest (req : ChatRequest) : Except String Unit := do
  if req.messages.length = 0 then
    throw "messages are required"
  validateMessagesFrom req.messages 0
  match req.temperature with
  | some temp =>
      if temp < 0 then
        throw ("temperature must be non-negative, got: " ++ toString temp)
  | none => pure ()
  match req.maxTokens with
  | some tokens =>
      if tokens ≤ 0 then
        throw ("max_tokens must be positive, got: " ++ toString tokens)
  | none => pure ()

/-- `utils.clampCompletionRequest`: clamp temperature, max tokens and stop
sequences of a completion request to the provider ranges. -/
def clampCompletionRequest (req : CompletionRequest) (provider : String) : CompletionRequest :=
  let temperature :=
    match req.temperature with
    | some temp =>
        let maxTemp := GetProviderMaxTemperature provider
        let t1 := if temp > maxTemp then maxTemp else temp
        let t2 := if t1 < 0 then 0 else t1
        some t2
    | none => none
  let maxTokens :=
    match req.maxTokens with
    | some tokens =>
        let maxTok := GetProviderTokenLimit provider
        let t1 := if tokens > maxTok then maxTok else tokens
        let t2 := if t1 ≤ 0 then GetDefaultMaxTokens provider else t1
        some t2
    | none => none
  let maxStop := GetProviderMaxStopSequences provider
  let stop := if req.stop.length > maxStop then req.stop.take maxStop else req.stop
  { req with temperature := temperature, maxTokens := maxTokens, stop := stop }

/-- `utils.clampChatRequest`: clamp temperature and max tokens of a chat
request to the provider ranges. -/
def clampChatRequest (req : ChatRequest) (provider : String) : ChatRequest :=
  let temperature :=
    match req.temperature with
    | some temp =>
        let maxTemp := GetProviderMaxTemperature provider
        let t1 := if temp > maxTemp then maxTemp else temp
        let t2 := if t1 < 0 then 0 else t1
        some t2
    | none => none
  let maxTokens :=
    match req.maxTokens with
    | some tokens =>
        let maxTok := GetProviderTokenLimit provider
        let t1 := if tokens > maxTok then maxTok else tokens
        let t2 := if t1 ≤ 0 then GetDefaultMaxTokens provider else t1
        some t2
    | none => none
  { req with temperature := temperature, maxTokens := maxTokens }

/-- The temperature half of the default-fill step of
`client.validateAndNormalizeCompletionRequest`: if the clamped request has
no temperature and the config carries one that already lies inside the
provider's range, copy it in; otherwise leave the request alone. -/
def fillTempDefault (cfg : Config) (provider : String)
    (clamped : CompletionRequest) : CompletionRequest :=
  match clamped.temperature, cfg.temperature with
  | none, some temp =>
      let maxTemp := GetProviderMaxTemperature provider
      if 0 ≤ temp ∧ temp ≤ maxTemp then
        { clamped with temperature := some temp }
      else clamped
  | _, _ => clamped

/-- The max-tokens half of the default-fill step of
`client.validateAndNormalizeCompletionRequest`. -/
def fillTokensDefault (cfg : Config) (provider : String)
    (clamped : CompletionRequest) : CompletionRequest :=
  match clamped.maxTokens, cfg.maxTokens with
  | none, some tokens =>
      let maxLimit := GetProviderTokenLimit provider
      if 0 < tokens ∧ tokens ≤ maxLimit then
        { clamped with maxTokens := some tokens }
      else clamped
  | _, _ => clamped

/-- The default-fill step of `client.validateAndNormalizeCompletionRequest`:
the two if-blocks of the source, temperature first, then max tokens. -/
def fillCompletionDefaults (cfg : Config) (provider : String)
    (clamped : CompletionRequest) : CompletionRequest :=
  fillTokensDefault cfg provider (fillTempDefault cfg provider clamped)

/-- The temperature half of the default-fill step of
`client.validateAndNormalizeChatRequest`. -/
def fillChatTempDefault (cfg : Config) (provider : String)
    (clamped : ChatRequest) : ChatRequest :=
  match clamped.temperature, cfg.temperature with
  | none, some temp =>
      let maxTemp := GetProviderMaxTemperature provider
      if 0 ≤ temp ∧ temp ≤ maxTemp then
        { clamped with temperature := some temp }
      else clamped
  | _, _ => clamped

/-- The max-tokens half of the default-fill step of
`client.validateAndNormalizeChatRequest`. -/
def fillChatTokensDefault (cfg : Config) (provider : String)
    (clamped : ChatRequest) : ChatRequest :=
  match clamped.maxTokens, cfg.maxTokens with
  | none, some tokens =>
      let maxLimit := GetProviderTokenLimit provider
      if 0 < tokens ∧ tokens ≤ maxLimit then
        { clamped with maxTokens := some tokens }
      else clamped
  | _, _ => clamped

/-- The default-fill step of `client.validateAndNormalizeChatRequest`:
the two if-blocks of the source, temperature first, then max tokens. -/
def fillChatDefaults (cfg : Config) (provider : String)
    (clamped : ChatRequest) : ChatRequest :=
  fillChatTokensDefault cfg provider (fillChatTempDefault cfg provider clamped)

/-- `client.validateAndNormalizeCompletionRequest`: validate, clamp for the
target provider, then fill config defaults. -/
def validateAndNormalizeCompletionRequest (provider : String) (cfg : Config)
    (req : CompletionRequest) : Except String CompletionRequest :=
  match ValidateCompletionRequest req with
  | .error e => .error e
  | .ok _ => .ok (fillCompletionDefaults cfg provider (clampCompletionRequest req provider))

/-- State of the role-scanning loop of `client.validateConversationStructure`:
the last non-system role seen, and the count of system messages. -/
structure ConvScan where
  lastNonSystemRole : String
  systemMessageCount : Nat
deriving Repr, DecidableEq

/-- The indexed loop of `client.validateConversationStructure`: walks the
messages, rejecting an assistant message seen before any user message. -/
def scanConversation (msgs : List Message) (index : Nat) (st : ConvScan) :
    Except String ConvScan :=
  match msgs with
  | [] => .ok st
  | msg :: rest =>
      if msg.role = "system" then
        scanConversation rest (index + 1)
          { st with systemMessageCount := st.systemMessageCount + 1 }
      else if msg.role = "user" then
        scanConversation rest (index + 1) { st with lastNonSystemRole := "user" }
      else if msg.role = "assistant" then
        if st.lastNonSystemRole = "" then
          .error ("conversation cannot start with assistant message at position " ++ toString index)
        else
          scanConversation rest (index + 1) { st with lastNonSystemRole := "assistant" }
      else
        scanConversation rest (index + 1) st

/-- `client.validateConversationStructure`: empty-conversation check, the
role scan, and the Anthropic-specific cap on system messages. -/
def validateConversationStructure (provider : String) (messages : List Message) :
    Except String Unit := do
  if messages.length = 0 then
    throw "conversation must have at least one message"
  let st ← scanConversation messages 0 ⟨"", 0⟩
  if provider = ProviderAnthropic then
    if st.systemMessageCount > 5 then
      throw ("too many system messages (" ++ toString st.systemMessageCount ++
             "), Anthropic recommends fewer system messages")
    else pure ()
  else pure ()

/-- `client.validateAndNormalizeChatRequest`: validate, check conversation
structure, clamp for the target provider, then fill config defaults. -/
def validateAndNormalizeChatRequest (provider : String) (cfg : Config)
    (req : ChatRequest) : Except String ChatRequest :=
  match ValidateChatRequest req with
  | .error e => .error e
  | .ok _ =>
    match validateConversationStructure provider req.messages with
    | .error e => .error ("invalid conversation structure: " ++ e)
    | .ok _ => .ok (fillChatDefaults cfg provider (clampChatRequest req provider))

/-! ### Error taxonomy (`errors.go`) -/

/-- `ErrorType`: the closed set of error kinds. -/
inductive ErrorKind
  | authentication
  | rateLimit
  | network
  | validation
  | provider
  | tokenLimit
deriving Repr, DecidableEq

/-- `Error`: the standardized cross-provider error value (the non-serialized
`Wrapped` cause is not modelled; no claim inspects it). -/
structure AIError where
  kind : ErrorKind
  message : String
  code : String
  provider : String
  retryAfter : Option Int
  tokenCount : Option Int
deriving Repr, DecidableEq

/-- `Error.IsRetryable`: retryable exactly for rate-limit and network kinds. -/
def AIError.IsRetryable (e : AIError) : Bool :=
  match e.kind with
  | .rateLimit => true
  | .network => true
  | _ => false

/-- `MapHTTPStatusToErrorType`: generic status-to-kind mapping. -/
def MapHTTPStatusToErrorType (statusCode : Int) : ErrorKind :=
  if statusCode = 401 ∨ statusCode = 403 then .authentication
  else if statusCode = 429 then .rateLimit
  else if 400 ≤ statusCode ∧ statusCode < 500 then .validation
  else if 500 ≤ statusCode then .provider
  else .network

/-- The validation-error wrapper built by `client.ChatComplete` when request
normalization fails, before any adapter call. -/
inductive ChatStep
  | localError (e : AIError)
  | dispatch (normalized : ChatRequest)
deriving Repr, DecidableEq

/-- The pre-network phase of `client.ChatComplete`: normalize the request;
on failure return the wrapped validation error without touching the adapter,
on success hand the normalized request to the adapter. -/
def clientChatComplete (provider : String) (cfg : Config) (req : ChatRequest) : ChatStep :=
  match validateAndNormalizeChatRequest provider cfg req with
  | .error e =>
      .localError ⟨.validation, "request validation failed: " ++ e, "", provider, none, none⟩
  | .ok normalized => .dispatch normalized

/-! ### Anthropic adapter error classification (`adapters/anthropic`) -/

/-- `anthropic.parseRetryAfterSeconds`: the simplified header parser that
ignores its input and returns 60. -/
def parseRetryAfterSeconds (value : String) : Int := 60

/-- `anthropic.getRetryAfter`: retry hint from the `Retry-After` header
value (Go's `headers.Get` yields `""` when the header is absent). -/
def getRetryAfter (retryAfterValue : String) : Option Int :=
  if retryAfterValue ≠ "" then
    let seconds := parseRetryAfterSeconds retryAfterValue
    if seconds > 0 then some seconds
    else some 60
  else some 60

/-- Result of `json.Unmarshal` on an Anthropic error body: either the
decoded `type`/`message` pair, or a decode failure leaving the raw body. -/
inductive AnthropicErrorBody
  | ok (etype : String) (emessage : String)
  | undecodable (raw : String)
deriving Repr, DecidableEq

/-- Outcome of `AnthropicAdapter.parseErrorResponse`: a structured adapter
error, or the generic error produced when the body cannot be decoded. -/
inductive ParseErrorResult
  | generic (message : String)
  | classified (e : AIError)
deriving Repr, DecidableEq

/-- `AnthropicAdapter.parseErrorResponse`: classify an Anthropic error
response by status code (401/403, 429, 400, default), attaching the retry
hint for 429. -/
def anthropicParseErrorResponse (statusCode : Int) (body : AnthropicErrorBody)
    (retryAfterValue : String) : ParseErrorResult :=
  match body with
  | .undecodable raw =>
      .generic ("Anthropic API error (status " ++ toString statusCode ++ "): " ++ raw)
  | .ok etype emessage =>
      let message := if emessage = "" then "Unknown Anthropic error" else emessage
      if statusCode = 401 ∨ statusCode = 403 then
        .classified ⟨.authentication, message, etype, "anthropic", none, none⟩
      else if statusCode = 429 then
        .classified ⟨.rateLimit, message, etype, "anthropic", getRetryAfter retryAfterValue, none⟩
      else if statusCode = 400 then
        .classified ⟨.validation, message, etype, "anthropic", none, none⟩
      else
        .classified ⟨.provider, message, etype, "anthropic", none, none⟩

/-- The max-retries defaulting of `anthropic.NewAdapter` (`openai.NewAdapter`
is identical): a configured value of 0 is replaced by 3. The constructor
has already validated `MaxRetries ≥ 0`. -/
def adapterMaxRetries (configMaxRetries : Int) : Int :=
  if configMaxRetries = 0 then 3 else configMaxRetries

/-! ### Transport client with retry (`internal/http`) -/

/-- Two's-complement wrap of an integer into the signed 64-bit range,
for the `time.Duration` arithmetic of `waitBeforeRetry`. -/
def int64Wrap (n : Int) : Int :=
  let m := n % (2 ^ 64 : Int)
  if m < 2 ^ 63 then m else m - 2 ^ 64

/-- The nanoseconds actually slept by `Client.waitBeforeRetry attempt`:
`time.Duration(1 << attempt) * time.Second`, capped at 30s; `time.Sleep`
returns immediately on a non-positive duration. -/
def sleepNs (attempt : Nat) : Int :=
  let backoff := int64Wrap (int64Wrap (2 ^ attempt) * 1000000000)
  let capped := if backoff > 30 * 1000000000 then 30 * 1000000000 else backoff
  max 0 capped

/-- `Client.shouldRetryStatus`: 429 and the four listed server errors. -/
def shouldRetryStatus (statusCode : Int) : Bool :=
  statusCode == 429 || statusCode == 500 || statusCode == 502 ||
  statusCode == 503 || statusCode == 504

/-- What one `httpClient.Do` call produces: a transport-level error or a
response with a status code. -/
inductive AttemptOutcome
  | transportError
  | response (statusCode : Int)
deriving Repr, DecidableEq

/-- Terminal result of `Client.doWithRetry`. -/
inductive DoResult
  | success (statusCode : Int)
  | failure (message : String)
deriving Repr, DecidableEq

/-- Observable trace of one `doWithRetry` call: its result, how many
`httpClient.Do` calls it issued, and the total nanoseconds it slept. -/
structure RetryTrace where
  result : DoResult
  doCalls : Nat
  sleptNs : Int
deriving Repr, DecidableEq

/-- The `for attempt := 0; attempt <= maxRetries` loop of
`Client.doWithRetry`. `doFn i` is what the i-th `httpClient.Do` call
produces; `fuel` counts the remaining loop iterations (the loop always
returns inside its body, so the fuel-exhausted branch models the dead
trailing `return`). `shouldRetryError` in the source returns true for
every transport error. -/
def retryLoop (doFn : Nat → AttemptOutcome) (maxRetries : Nat) :
    Nat → Nat → Nat → Int → RetryTrace
  | _, 0, calls, slept =>
      ⟨.failure ("HTTP request failed after " ++ toString (maxRetries + 1) ++ " attempts"),
       calls, slept⟩
  | attempt, fuel + 1, calls, slept =>
      match doFn attempt with
      | .transportError =>
          if attempt < maxRetries then
            retryLoop doFn maxRetries (attempt + 1) fuel (calls + 1) (slept + sleepNs attempt)
          else
            ⟨.failure ("HTTP request failed after " ++ toString (attempt + 1) ++ " attempts"),
             calls + 1, slept⟩
      | .response statusCode =>
          if shouldRetryStatus statusCode ∧ attempt < maxRetries then
            retryLoop doFn maxRetries (attempt + 1) fuel (calls + 1) (slept + sleepNs attempt)
          else
            ⟨.success statusCode, calls + 1, slept⟩

/-- `Client.doWithRetry`: run the retry loop from attempt 0 with the full
attempt budget `maxRetries + 1`. -/
def doWithRetry (doFn : Nat → AttemptOutcome) (maxRetries : Nat) : RetryTrace :=
  retryLoop doFn maxRetries 0 (maxRetries + 1) 0 0

/-- `doWithRetry` under a cancellation signal: the loop itself never
consults the context — cancellation only shows up because the request
carries the context, so once `cancelledAt i` holds the i-th
`httpClient.Do` call fails with the context error. -/
def doWithRetryCtx (outcomes : Nat → AttemptOutcome) (cancelledAt : Nat → Bool)
    (maxRetries : Nat) : RetryTrace :=
  doWithRetry (fun i => if cancelledAt i then .transportError else outcomes i) maxRetries

/-! ### Helper lemmas -/

theorem retryLoop_doCalls_le (doFn : Nat → AttemptOutcome) (maxRetries : Nat) :
    ∀ (fuel attempt calls : Nat) (slept : Int),
      (retryLoop doFn maxRetries attempt fuel calls slept).doCalls ≤ calls + fuel := by
  intro fuel
  induction fuel with
  | zero => intro attempt calls slept; simp [retryLoop]
  | succ fuel ih =>
      intro attempt calls slept
      unfold retryLoop
      cases hdo : doFn attempt with
      | transportError =>
          dsimp only
          by_cases h : attempt < maxRetries
          · rw [if_pos h]
            exact le_trans (ih (attempt + 1) (calls + 1) _) (by omega)
          · rw [if_neg h]
            show calls + 1 ≤ calls + (fuel + 1)
            omega
      | response s =>
          dsimp only
          by_cases h : shouldRetryStatus s = true ∧ attempt < maxRetries
          · rw [if_pos h]
            exact le_trans (ih (attempt + 1) (calls + 1) _) (by omega)
          · rw [if_neg h]
            show calls + 1 ≤ calls + (fuel + 1)
            omega

theorem retryLoop_doCalls_ge (doFn : Nat → AttemptOutcome) (maxRetries : Nat) :
    ∀ (fuel attempt calls : Nat) (slept : Int),
      calls ≤ (retryLoop doFn maxRetries attempt fuel calls slept).doCalls := by
  intro fuel
  induction fuel with
  | zero => intro attempt calls slept; simp [retryLoop]
  | succ fuel ih =>
      intro attempt calls slept
      unfold retryLoop
      cases hdo : doFn attempt with
      | transportError =>
          dsimp only
          by_cases h : attempt < maxRetries
          · rw [if_pos h]
            exact le_trans (Nat.le_succ calls) (ih (attempt + 1) (calls + 1) _)
          · rw [if_neg h]
            exact Nat.le_succ calls
      | response s =>
          dsimp only
          by_cases h : shouldRetryStatus s = true ∧ attempt < maxRetries
          · rw [if_pos h]
            exact le_trans (Nat.le_succ calls) (ih (attempt + 1) (calls + 1) _)
          · rw [if_neg h]
            exact Nat.le_succ calls

/-- A run whose every `Do` call fails at the transport level executes all
of its iterations, sleeping the full backoff between consecutive attempts. -/
theorem retryLoop_all_transport_errors (doFn : Nat → AttemptOutcome)
    (maxRetries : Nat) (hall : ∀ i, doFn i = .transportError) :
    ∀ (fuel attempt calls : Nat) (slept : Int), attempt + fuel = maxRetries + 1 →
      retryLoop doFn maxRetries attempt fuel calls slept =
        ⟨.failure ("HTTP request failed after " ++ toString (maxRetries + 1) ++ " attempts"),
         calls + fuel, slept + ∑ i ∈ Finset.Ico attempt maxRetries, sleepNs i⟩ := by
  intro fuel
  induction fuel with
  | zero =>
      intro attempt calls slept hsum
      have : attempt = maxRetries + 1 := by omega
      subst this
      simp [retryLoop, Finset.Ico_eq_empty_of_le (by omega : maxRetries ≤ maxRetries + 1)]
  | succ fuel ih =>
      intro attempt calls slept hsum
      unfold retryLoop
      rw [hall attempt]
      by_cases h : attempt < maxRetries
      · simp only [h, if_true]
        rw [ih (attempt + 1) (calls + 1) (slept + sleepNs attempt) (by omega)]
        have hIco : ∑ i ∈ Finset.Ico attempt maxRetries, sleepNs i =
            sleepNs attempt + ∑ i ∈ Finset.Ico (attempt + 1) maxRetries, sleepNs i :=
          Finset.sum_eq_sum_Ico_succ_bot h sleepNs
        rw [RetryTrace.mk.injEq]
        refine ⟨rfl, by omega, by rw [hIco]; ring⟩
      · have hattempt : attempt = maxRetries := by omega
        have hfuel : fuel = 0 := by omega
        subst hattempt hfuel
        simp [h]

theorem int64Wrap_eq_self {n : Int} (h0 : 0 ≤ n) (h : n < 2 ^ 63) : int64Wrap n = n := by
  unfold int64Wrap
  have hmod : n % (2 ^ 64 : Int) = n := Int.emod_eq_of_lt h0 (by nlinarith)
  simp only [hmod]
  rw [if_pos h]

theorem sleepNs_eq_min {attempt : Nat} (h : attempt ≤ 33) :
    sleepNs attempt = min (30 * 1000000000) (2 ^ attempt * 1000000000) := by
  unfold sleepNs
  have hle : (2 : Int) ^ attempt ≤ 2 ^ 33 :=
    pow_le_pow_right₀ (by norm_num) h
  have hpos : (0 : Int) < 2 ^ attempt := by positivity
  have h1 : int64Wrap (2 ^ attempt) = 2 ^ attempt :=
    int64Wrap_eq_self (le_of_lt hpos) (by nlinarith [hle])
  rw [h1]
  have h2 : int64Wrap (2 ^ attempt * 1000000000) = 2 ^ attempt * 1000000000 :=
    int64Wrap_eq_self (by positivity) (by nlinarith [hle])
  rw [h2]
  dsimp only
  by_cases hgt : (2 : Int) ^ attempt * 1000000000 > 30 * 1000000000
  · rw [if_pos hgt, max_eq_right (by norm_num : (0 : Int) ≤ 30 * 1000000000),
        min_eq_left (by linarith)]
  · rw [if_neg hgt, max_eq_right (by positivity),
        min_eq_right (by linarith [not_lt.mp hgt])]

theorem retryLoop_doCalls_one_le (doFn : Nat → AttemptOutcome) (maxRetries : Nat) :
    ∀ (fuel attempt calls : Nat) (slept : Int), 1 ≤ fuel →
      calls + 1 ≤ (retryLoop doFn maxRetries attempt fuel calls slept).doCalls := by
  intro fuel
  cases fuel with
  | zero => intro _ _ _ h; omega
  | succ fuel =>
      intro attempt calls slept _
      unfold retryLoop
      cases hdo : doFn attempt with
      | transportError =>
          dsimp only
          by_cases h : attempt < maxRetries
          · rw [if_pos h]
            exact retryLoop_doCalls_ge doFn maxRetries fuel (attempt + 1) (calls + 1) _
          · rw [if_neg h]
      | response s =>
          dsimp only
          by_cases h : shouldRetryStatus s = true ∧ attempt < maxRetries
          · rw [if_pos h]
            exact retryLoop_doCalls_ge doFn maxRetries fuel (attempt + 1) (calls + 1) _
          · rw [if_neg h]

theorem GetProviderMaxTemperature_pos (p : String) : 0 < GetProviderMaxTemperature p := by
  unfold GetProviderMaxTemperature
  split_ifs <;> norm_num

theorem GetProviderTokenLimit_pos (p : String) : 0 < GetProviderTokenLimit p := by
  unfold GetProviderTokenLimit
  split_ifs <;> norm_num

theorem GetDefaultMaxTokens_pos (p : String) : 0 < GetDefaultMaxTokens p := by
  unfold GetDefaultMaxTokens
  split_ifs <;> norm_num

theorem GetDefaultMaxTokens_le (p : String) :
    GetDefaultMaxTokens p ≤ GetProviderTokenLimit p := by
  unfold GetDefaultMaxTokens GetProviderTokenLimit
  split_ifs <;> norm_num

theorem clampC_prompt (req : CompletionRequest) (p : String) :
    (clampCompletionRequest req p).prompt = req.prompt := rfl

theorem clampC_stream (req : CompletionRequest) (p : String) :
    (clampCompletionRequest req p).stream = req.stream := rfl

theorem clampC_temp_none_iff (req : CompletionRequest) (p : String) :
    (clampCompletionRequest req p).temperature = none ↔ req.temperature = none := by
  cases h : req.temperature <;> simp [clampCompletionRequest, h]

theorem clampC_temp_bound (req : CompletionRequest) (p : String) (u : Rat)
    (hu : (clampCompletionRequest req p).temperature = some u) :
    0 ≤ u ∧ u ≤ GetProviderMaxTemperature p := by
  have hpos := GetProviderMaxTemperature_pos p
  cases h : req.temperature with
  | none => rw [clampC_temp_none_iff req p |>.2 h] at hu; exact absurd hu (by simp)
  | some t =>
      simp only [clampCompletionRequest, h] at hu
      split_ifs at hu with h1 h2 h2 <;>
        · rw [Option.some_inj] at hu
          subst hu
          constructor <;> linarith

theorem clampC_temp_id (req : CompletionRequest) (p : String) (t : Rat)
    (h : req.temperature = some t) (h0 : 0 ≤ t) (h1 : t ≤ GetProviderMaxTemperature p) :
    (clampCompletionRequest req p).temperature = some t := by
  simp only [clampCompletionRequest, h]
  rw [if_neg (not_lt.2 h1), if_neg (not_lt.2 h0)]

theorem clampC_tokens_none_iff (req : CompletionRequest) (p : String) :
    (clampCompletionRequest req p).maxTokens = none ↔ req.maxTokens = none := by
  cases h : req.maxTokens <;> simp [clampCompletionRequest, h]

theorem clampC_tokens_bound (req : CompletionRequest) (p : String) (m : Int)
    (hm : (clampCompletionRequest req p).maxTokens = some m) :
    0 < m ∧ m ≤ GetProviderTokenLimit p := by
  have hpos := GetProviderTokenLimit_pos p
  have hdp := GetDefaultMaxTokens_pos p
  have hdl := GetDefaultMaxTokens_le p
  cases h : req.maxTokens with
  | none => rw [clampC_tokens_none_iff req p |>.2 h] at hm; exact absurd hm (by simp)
  | some n =>
      simp only [clampCompletionRequest, h] at hm
      split_ifs at hm with h1 h2 h2 <;>
        · rw [Option.some_inj] at hm
          subst hm
          constructor <;> omega

theorem clampC_tokens_id (req : CompletionRequest) (p : String) (n : Int)
    (h : req.maxTokens = some n) (h0 : 0 < n) (h1 : n ≤ GetProviderTokenLimit p) :
    (clampCompletionRequest req p).maxTokens = some n := by
  simp only [clampCompletionRequest, h]
  rw [if_neg (not_lt.2 h1), if_neg (by omega)]

theorem clampC_stop_le (req : CompletionRequest) (p : String) :
    (clampCompletionRequest req p).stop.length ≤ GetProviderMaxStopSequences p := by
  by_cases h : req.stop.length > GetProviderMaxStopSequences p <;>
    simp [clampCompletionRequest, h] <;> omega

theorem clampC_stop_id (req : CompletionRequest) (p : String)
    (h : req.stop.length ≤ GetProviderMaxStopSequences p) :
    (clampCompletionRequest req p).stop = req.stop := by
  simp only [clampCompletionRequest]
  rw [if_neg (not_lt.2 h)]

theorem clampC_id (req : CompletionRequest) (p : String)
    (ht : ∀ t, req.temperature = some t → 0 ≤ t ∧ t ≤ GetProviderMaxTemperature p)
    (hk : ∀ n, req.maxTokens = some n → 0 < n ∧ n ≤ GetProviderTokenLimit p)
    (hs : req.stop.length ≤ GetProviderMaxStopSequences p) :
    clampCompletionRequest req p = req := by
  have h1 : (clampCompletionRequest req p).temperature = req.temperature := by
    cases hte : req.temperature with
    | none => exact (clampC_temp_none_iff req p).2 hte
    | some t =>
        obtain ⟨hl, hr⟩ := ht t hte
        exact clampC_temp_id req p t hte hl hr
  have h2 : (clampCompletionRequest req p).maxTokens = req.maxTokens := by
    cases hto : req.maxTokens with
    | none => exact (clampC_tokens_none_iff req p).2 hto
    | some n =>
        obtain ⟨hl, hr⟩ := hk n hto
        exact clampC_tokens_id req p n hto hl hr
  have h3 : (clampCompletionRequest req p).stop = req.stop := clampC_stop_id req p hs
  have heta : clampCompletionRequest req p =
      ⟨(clampCompletionRequest req p).prompt,
       (clampCompletionRequest req p).temperature,
       (clampCompletionRequest req p).maxTokens,
       (clampCompletionRequest req p).stop,
       (clampCompletionRequest req p).stream⟩ := rfl
  rw [heta, clampC_prompt, clampC_stream, h1, h2, h3]

theorem fillTempD_some (cfg : Config) (p : String) (r : CompletionRequest) (t : Rat)
    (h : r.temperature = some t) : fillTempDefault cfg p r = r := by
  cases hc : cfg.temperature <;> simp [fillTempDefault, h, hc]

theorem fillTempD_skip (cfg : Config) (p : String) (r : CompletionRequest)
    (h : r.temperature = none)
    (hc : ∀ t, cfg.temperature = some t → ¬(0 ≤ t ∧ t ≤ GetProviderMaxTemperature p)) :
    fillTempDefault cfg p r = r := by
  cases hct : cfg.temperature with
  | none => simp [fillTempDefault, h, hct]
  | some t => simp [fillTempDefault, h, hct, hc t hct]

theorem fillTempD_fill (cfg : Config) (p : String) (r : CompletionRequest) (t : Rat)
    (h : r.temperature = none) (hct : cfg.temperature = some t)
    (hin : 0 ≤ t ∧ t ≤ GetProviderMaxTemperature p) :
    fillTempDefault cfg p r = { r with temperature := some t } := by
  simp [fillTempDefault, h, hct, hin]

theorem fillTempD_fields (cfg : Config) (p : String) (r : CompletionRequest) :
    (fillTempDefault cfg p r).prompt = r.prompt ∧
    (fillTempDefault cfg p r).maxTokens = r.maxTokens ∧
    (fillTempDefault cfg p r).stop = r.stop ∧
    (fillTempDefault cfg p r).stream = r.stream := by
  cases h : r.temperature <;> cases hc : cfg.temperature <;>
    simp [fillTempDefault, h, hc] <;> split_ifs <;> simp

theorem fillTempD_temp_none_inv (cfg : Config) (p : String) (r : CompletionRequest)
    (h : (fillTempDefault cfg p r).temperature = none) :
    r.temperature = none ∧
    ∀ t, cfg.temperature = some t → ¬(0 ≤ t ∧ t ≤ GetProviderMaxTemperature p) := by
  cases hr : r.temperature with
  | some t => rw [fillTempD_some cfg p r t hr] at h; rw [hr] at h; exact absurd h (by simp)
  | none =>
      refine ⟨rfl, fun t hct hin => ?_⟩
      rw [fillTempD_fill cfg p r t hr hct hin] at h
      exact absurd h (by simp)

theorem fillTempD_temp_some_inv (cfg : Config) (p : String) (r : CompletionRequest) (u : Rat)
    (h : (fillTempDefault cfg p r).temperature = some u) :
    r.temperature = some u ∨ (0 ≤ u ∧ u ≤ GetProviderMaxTemperature p) := by
  cases hr : r.temperature with
  | some t =>
      rw [fillTempD_some cfg p r t hr, hr] at h
      rw [Option.some_inj] at h
      exact Or.inl (by rw [h])
  | none =>
      cases hct : cfg.temperature with
      | none =>
          rw [fillTempD_skip cfg p r hr (by intro t ht; rw [hct] at ht; exact absurd ht (by simp)),
              hr] at h
          exact absurd h (by simp)
      | some t =>
          by_cases hin : 0 ≤ t ∧ t ≤ GetProviderMaxTemperature p
          · rw [fillTempD_fill cfg p r t hr hct hin] at h
            simp at h
            exact Or.inr (h ▸ hin)
          · rw [fillTempD_skip cfg p r hr
                (by intro s hs; rw [hct] at hs; rw [Option.some_inj] at hs; exact hs ▸ hin),
                hr] at h
            exact absurd h (by simp)

theorem fillTokensD_some (cfg : Config) (p : String) (r : CompletionRequest) (n : Int)
    (h : r.maxTokens = some n) : fillTokensDefault cfg p r = r := by
  cases hc : cfg.maxTokens <;> simp [fillTokensDefault, h, hc]

theorem fillTokensD_skip (cfg : Config) (p : String) (r : CompletionRequest)
    (h : r.maxTokens = none)
    (hc : ∀ n, cfg.maxTokens = some n → ¬(0 < n ∧ n ≤ GetProviderTokenLimit p)) :
    fillTokensDefault cfg p r = r := by
  cases hct : cfg.maxTokens with
  | none => simp [fillTokensDefault, h, hct]
  | some n => simp [fillTokensDefault, h, hct, hc n hct]

theorem fillTokensD_fill (cfg : Config) (p : String) (r : CompletionRequest) (n : Int)
    (h : r.maxTokens = none) (hct : cfg.maxTokens = some n)
    (hin : 0 < n ∧ n ≤ GetProviderTokenLimit p) :
    fillTokensDefault cfg p r = { r with maxTokens := some n } := by
  simp [fillTokensDefault, h, hct, hin]

theorem fillTokensD_fields (cfg : Config) (p : String) (r : CompletionRequest) :
    (fillTokensDefault cfg p r).prompt = r.prompt ∧
    (fillTokensDefault cfg p r).temperature = r.temperature ∧
    (fillTokensDefault cfg p r).stop = r.stop ∧
    (fillTokensDefault cfg p r).stream = r.stream := by
  cases h : r.maxTokens <;> cases hc : cfg.maxTokens <;>
    simp [fillTokensDefault, h, hc] <;> split_ifs <;> simp

theorem fillTokensD_tokens_none_inv (cfg : Config) (p : String) (r : CompletionRequest)
    (h : (fillTokensDefault cfg p r).maxTokens = none) :
    r.maxTokens = none ∧
    ∀ n, cfg.maxTokens = some n → ¬(0 < n ∧ n ≤ GetProviderTokenLimit p) := by
  cases hr : r.maxTokens with
  | some n => rw [fillTokensD_some cfg p r n hr, hr] at h; exact absurd h (by simp)
  | none =>
      refine ⟨rfl, fun n hct hin => ?_⟩
      rw [fillTokensD_fill cfg p r n hr hct hin] at h
      exact absurd h (by simp)

theorem fillTokensD_tokens_some_inv (cfg : Config) (p : String) (r : CompletionRequest) (m : Int)
    (h : (fillTokensDefault cfg p r).maxTokens = some m) :
    r.maxTokens = some m ∨ (0 < m ∧ m ≤ GetProviderTokenLimit p) := by
  cases hr : r.maxTokens with
  | some n =>
      rw [fillTokensD_some cfg p r n hr, hr] at h
      rw [Option.some_inj] at h
      exact Or.inl (by rw [h])
  | none =>
      cases hct : cfg.maxTokens with
      | none =>
          rw [fillTokensD_skip cfg p r hr (by intro n hn; rw [hct] at hn; exact absurd hn (by simp)),
              hr] at h
          exact absurd h (by simp)
      | some n =>
          by_cases hin : 0 < n ∧ n ≤ GetProviderTokenLimit p
          · rw [fillTokensD_fill cfg p r n hr hct hin] at h
            simp at h
            exact Or.inr (h ▸ hin)
          · rw [fillTokensD_skip cfg p r hr
                (by intro s hs; rw [hct] at hs; rw [Option.some_inj] at hs; exact hs ▸ hin),
                hr] at h
            exact absurd h (by simp)

/-- The shape of a normalized completion request: the prompt and stream
flag survive, the stop list fits the provider bound, present numeric
fields are in the provider range, and an absent field certifies that the
config default (if any) was out of range. -/
theorem normalizedC_spec (p : String) (cfg : Config) (req : CompletionRequest) :
    (fillCompletionDefaults cfg p (clampCompletionRequest req p)).prompt = req.prompt ∧
    (fillCompletionDefaults cfg p (clampCompletionRequest req p)).stream = req.stream ∧
    (fillCompletionDefaults cfg p (clampCompletionRequest req p)).stop.length ≤
      GetProviderMaxStopSequences p ∧
    (∀ u, (fillCompletionDefaults cfg p (clampCompletionRequest req p)).temperature = some u →
        0 ≤ u ∧ u ≤ GetProviderMaxTemperature p) ∧
    (∀ m, (fillCompletionDefaults cfg p (clampCompletionRequest req p)).maxTokens = some m →
        0 < m ∧ m ≤ GetProviderTokenLimit p) ∧
    ((fillCompletionDefaults cfg p (clampCompletionRequest req p)).temperature = none →
        ∀ t, cfg.temperature = some t → ¬(0 ≤ t ∧ t ≤ GetProviderMaxTemperature p)) ∧
    ((fillCompletionDefaults cfg p (clampCompletionRequest req p)).maxTokens = none →
        ∀ n, cfg.maxTokens = some n → ¬(0 < n ∧ n ≤ GetProviderTokenLimit p)) := by
  have hTked := fillTokensD_fields cfg p (fillTempDefault cfg p (clampCompletionRequest req p))
  have hTmp := fillTempD_fields cfg p (clampCompletionRequest req p)
  unfold fillCompletionDefaults
  refine ⟨?_, ?_, ?_, ?_, ?_, ?_, ?_⟩
  · rw [hTked.1, hTmp.1, clampC_prompt]
  · rw [hTked.2.2.2, hTmp.2.2.2, clampC_stream]
  · rw [hTked.2.2.1, hTmp.2.2.1]
    exact clampC_stop_le req p
  · intro u hu
    rw [hTked.2.1] at hu
    rcases fillTempD_temp_some_inv cfg p _ u hu with hc | hb
    · exact clampC_temp_bound req p u hc
    · exact hb
  · intro m hm
    rcases fillTokensD_tokens_some_inv cfg p _ m hm with hc | hb
    · rw [hTmp.2.1] at hc
      exact clampC_tokens_bound req p m hc
    · exact hb
  · intro hnone
    rw [hTked.2.1] at hnone
    exact (fillTempD_temp_none_inv cfg p _ hnone).2
  · intro hnone
    exact (fillTokensD_tokens_none_inv cfg p _ hnone).2

/-- Characterization of successful structural validation of a completion
request. -/
theorem validateC_ok_iff (req : CompletionRequest) :
    ValidateCompletionRequest req = .ok () ↔
      (isBlankStr req.prompt = false ∧
       (∀ t, req.temperature = some t → 0 ≤ t) ∧
       (∀ n, req.maxTokens = some n → 0 < n)) := by
  unfold ValidateCompletionRequest
  cases ht : req.temperature <;> cases hk : req.maxTokens <;>
    by_cases hb : isBlankStr req.prompt = true <;>
      simp_all [Bind.bind, Except.bind, pure, Except.pure, not_lt, not_le] <;>
        split_ifs <;> simp_all [not_lt, not_le]

theorem clampH_messages (req : ChatRequest) (p : String) :
    (clampChatRequest req p).messages = req.messages := rfl

theorem clampH_stream (req : ChatRequest) (p : String) :
    (clampChatRequest req p).stream = req.stream := rfl

theorem clampH_temp_none_iff (req : ChatRequest) (p : String) :
    (clampChatRequest req p).temperature = none ↔ req.temperature = none := by
  cases h : req.temperature <;> simp [clampChatRequest, h]

theorem clampH_temp_bound (req : ChatRequest) (p : String) (u : Rat)
    (hu : (clampChatRequest req p).temperature = some u) :
    0 ≤ u ∧ u ≤ GetProviderMaxTemperature p := by
  have hpos := GetProviderMaxTemperature_pos p
  cases h : req.temperature with
  | none => rw [clampH_temp_none_iff req p |>.2 h] at hu; exact absurd hu (by simp)
  | some t =>
      simp only [clampChatRequest, h] at hu
      split_ifs at hu with h1 h2 h2 <;>
        · rw [Option.some_inj] at hu
          subst hu
          constructor <;> linarith

theorem clampH_temp_id (req : ChatRequest) (p : String) (t : Rat)
    (h : req.temperature = some t) (h0 : 0 ≤ t) (h1 : t ≤ GetProviderMaxTemperature p) :
    (clampChatRequest req p).temperature = some t := by
  simp only [clampChatRequest, h]
  rw [if_neg (not_lt.2 h1), if_neg (not_lt.2 h0)]

theorem clampH_tokens_none_iff (req : ChatRequest) (p : String) :
    (clampChatRequest req p).maxTokens = none ↔ req.maxTokens = none := by
  cases h : req.maxTokens <;> simp [clampChatRequest, h]

theorem clampH_tokens_bound (req : ChatRequest) (p : String) (m : Int)
    (hm : (clampChatRequest req p).maxTokens = some m) :
    0 < m ∧ m ≤ GetProviderTokenLimit p := by
  have hpos := GetProviderTokenLimit_pos p
  have hdp := GetDefaultMaxTokens_pos p
  have hdl := GetDefaultMaxTokens_le p
  cases h : req.maxTokens with
  | none => rw [clampH_tokens_none_iff req p |>.2 h] at hm; exact absurd hm (by simp)
  | some n =>
      simp only [clampChatRequest, h] at hm
      split_ifs at hm with h1 h2 h2 <;>
        · rw [Option.some_inj] at hm
          subst hm
          constructor <;> omega

theorem clampH_tokens_id (req : ChatRequest) (p : String) (n : Int)
    (h : req.maxTokens = some n) (h0 : 0 < n) (h1 : n ≤ GetProviderTokenLimit p) :
    (clampChatRequest req p).maxTokens = some n := by
  simp only [clampChatRequest, h]
  rw [if_neg (not_lt.2 h1), if_neg (by omega)]

theorem clampH_id (req : ChatRequest) (p : String)
    (ht : ∀ t, req.temperature = some t → 0 ≤ t ∧ t ≤ GetProviderMaxTemperature p)
    (hk : ∀ n, req.maxTokens = some n → 0 < n ∧ n ≤ GetProviderTokenLimit p) :
    clampChatRequest req p = req := by
  have h1 : (clampChatRequest req p).temperature = req.temperature := by
    cases hte : req.temperature with
    | none => exact (clampH_temp_none_iff req p).2 hte
    | some t =>
        obtain ⟨hl, hr⟩ := ht t hte
        exact clampH_temp_id req p t hte hl hr
  have h2 : (clampChatRequest req p).maxTokens = req.maxTokens := by
    cases hto : req.maxTokens with
    | none => exact (clampH_tokens_none_iff req p).2 hto
    | some n =>
        obtain ⟨hl, hr⟩ := hk n hto
        exact clampH_tokens_id req p n hto hl hr
  have heta : clampChatRequest req p =
      ⟨(clampChatRequest req p).messages,
       (clampChatRequest req p).temperature,
       (clampChatRequest req p).maxTokens,
       (clampChatRequest req p).stream⟩ := rfl
  rw [heta, clampH_messages, clampH_stream, h1, h2]

theorem fillHTempD_some (cfg : Config) (p : String) (r : ChatRequest) (t : Rat)
    (h : r.temperature = some t) : fillChatTempDefault cfg p r = r := by
  cases hc : cfg.temperature <;> simp [fillChatTempDefault, h, hc]

theorem fillHTempD_skip (cfg : Config) (p : String) (r : ChatRequest)
    (h : r.temperature = none)
    (hc : ∀ t, cfg.temperature = some t → ¬(0 ≤ t ∧ t ≤ GetProviderMaxTemperature p)) :
    fillChatTempDefault cfg p r = r := by
  cases hct : cfg.temperature with
  | none => simp [fillChatTempDefault, h, hct]
  | some t => simp [fillChatTempDefault, h, hct, hc t hct]

theorem fillHTempD_fill (cfg : Config) (p : String) (r : ChatRequest) (t : Rat)
    (h : r.temperature = none) (hct : cfg.temperature = some t)
    (hin : 0 ≤ t ∧ t ≤ GetProviderMaxTemperature p) :
    fillChatTempDefault cfg p r = { r with temperature := some t } := by
  simp [fillChatTempDefault, h, hct, hin]

theorem fillHTempD_fields (cfg : Config) (p : String) (r : ChatRequest) :
    (fillChatTempDefault cfg p r).messages = r.messages ∧
    (fillChatTempDefault cfg p r).maxTokens = r.maxTokens ∧
    (fillChatTempDefault cfg p r).stream = r.stream := by
  cases h : r.temperature <;> cases hc : cfg.temperature <;>
    simp [fillChatTempDefault, h, hc] <;> split_ifs <;> simp

theorem fillHTempD_temp_none_inv (cfg : Config) (p : String) (r : ChatRequest)
    (h : (fillChatTempDefault cfg p r).temperature = none) :
    r.temperature = none ∧
    ∀ t, cfg.temperature = some t → ¬(0 ≤ t ∧ t ≤ GetProviderMaxTemperature p) := by
  cases hr : r.temperature with
  | some t => rw [fillHTempD_some cfg p r t hr, hr] at h; exact absurd h (by simp)
  | none =>
      refine ⟨rfl, fun t hct hin => ?_⟩
      rw [fillHTempD_fill cfg p r t hr hct hin] at h
      exact absurd h (by simp)

theorem fillHTempD_temp_some_inv (cfg : Config) (p : String) (r : ChatRequest) (u : Rat)
    (h : (fillChatTempDefault cfg p r).temperature = some u) :
    r.temperature = some u ∨ (0 ≤ u ∧ u ≤ GetProviderMaxTemperature p) := by
  cases hr : r.temperature with
  | some t =>
      rw [fillHTempD_some cfg p r t hr, hr] at h
      rw [Option.some_inj] at h
      exact Or.inl (by rw [h])
  | none =>
      cases hct : cfg.temperature with
      | none =>
          rw [fillHTempD_skip cfg p r hr (by intro t ht; rw [hct] at ht; exact absurd ht (by simp)),
              hr] at h
          exact absurd h (by simp)
      | some t =>
          by_cases hin : 0 ≤ t ∧ t ≤ GetProviderMaxTemperature p
          · rw [fillHTempD_fill cfg p r t hr hct hin] at h
            simp at h
            exact Or.inr (h ▸ hin)
          · rw [fillHTempD_skip cfg p r hr
                (by intro s hs; rw [hct] at hs; rw [Option.some_inj] at hs; exact hs ▸ hin),
                hr] at h
            exact absurd h (by simp)

theorem fillHTokensD_some (cfg : Config) (p : String) (r : ChatRequest) (n : Int)
    (h : r.maxTokens = some n) : fillChatTokensDefault cfg p r = r := by
  cases hc : cfg.maxTokens <;> simp [fillChatTokensDefault, h, hc]

theorem fillHTokensD_skip (cfg : Config) (p : String) (r : ChatRequest)
    (h : r.maxTokens = none)
    (hc : ∀ n, cfg.maxTokens = some n → ¬(0 < n ∧ n ≤ GetProviderTokenLimit p)) :
    fillChatTokensDefault cfg p r = r := by
  cases hct : cfg.maxTokens with
  | none => simp [fillChatTokensDefault, h, hct]
  | some n => simp [fillChatTokensDefault, h, hct, hc n hct]

theorem fillHTokensD_fill (cfg : Config) (p : String) (r : ChatRequest) (n : Int)
    (h : r.maxTokens = none) (hct : cfg.maxTokens = some n)
    (hin : 0 < n ∧ n ≤ GetProviderTokenLimit p) :
    fillChatTokensDefault cfg p r = { r with maxTokens := some n } := by
  simp [fillChatTokensDefault, h, hct, hin]

theorem fillHTokensD_fields (cfg : Config) (p : String) (r : ChatRequest) :
    (fillChatTokensDefault cfg p r).messages = r.messages ∧
    (fillChatTokensDefault cfg p r).temperature = r.temperature ∧
    (fillChatTokensDefault cfg p r).stream = r.stream := by
  cases h : r.maxTokens <;> cases hc : cfg.maxTokens <;>
    simp [fillChatTokensDefault, h, hc] <;> split_ifs <;> simp

theorem fillHTokensD_tokens_none_inv (cfg : Config) (p : String) (r : ChatRequest)
    (h : (fillChatTokensDefault cfg p r).maxTokens = none) :
    r.maxTokens = none ∧
    ∀ n, cfg.maxTokens = some n → ¬(0 < n ∧ n ≤ GetProviderTokenLimit p) := by
  cases hr : r.maxTokens with
  | some n => rw [fillHTokensD_some cfg p r n hr, hr] at h; exact absurd h (by simp)
  | none =>
      refine ⟨rfl, fun n hct hin => ?_⟩
      rw [fillHTokensD_fill cfg p r n hr hct hin] at h
      exact absurd h (by simp)

theorem fillHTokensD_tokens_some_inv (cfg : Config) (p : String) (r : ChatRequest) (m : Int)
    (h : (fillChatTokensDefault cfg p r).maxTokens = some m) :
    r.maxTokens = some m ∨ (0 < m ∧ m ≤ GetProviderTokenLimit p) := by
  cases hr : r.maxTokens with
  | some n =>
      rw [fillHTokensD_some cfg p r n hr, hr] at h
      rw [Option.some_inj] at h
      exact Or.inl (by rw [h])
  | none =>
      cases hct : cfg.maxTokens with
      | none =>
          rw [fillHTokensD_skip cfg p r hr (by intro n hn; rw [hct] at hn; exact absurd hn (by simp)),
              hr] at h
          exact absurd h (by simp)
      | some n =>
          by_cases hin : 0 < n ∧ n ≤ GetProviderTokenLimit p
          · rw [fillHTokensD_fill cfg p r n hr hct hin] at h
            simp at h
            exact Or.inr (h ▸ hin)
          · rw [fillHTokensD_skip cfg p r hr
                (by intro s hs; rw [hct] at hs; rw [Option.some_inj] at hs; exact hs ▸ hin),
                hr] at h
            exact absurd h (by simp)

/-- The shape of a normalized chat request: the messages and stream flag
survive, present numeric fields are in the provider range, and an absent
field certifies that the config default (if any) was out of range. -/
theorem normalizedH_spec (p : String) (cfg : Config) (req : ChatRequest) :
    (fillChatDefaults cfg p (clampChatRequest req p)).messages = req.messages ∧
    (fillChatDefaults cfg p (clampChatRequest req p)).stream = req.stream ∧
    (∀ u, (fillChatDefaults cfg p (clampChatRequest req p)).temperature = some u →
        0 ≤ u ∧ u ≤ GetProviderMaxTemperature p) ∧
    (∀ m, (fillChatDefaults cfg p (clampChatRequest req p)).maxTokens = some m →
        0 < m ∧ m ≤ GetProviderTokenLimit p) ∧
    ((fillChatDefaults cfg p (clampChatRequest req p)).temperature = none →
        ∀ t, cfg.temperature = some t → ¬(0 ≤ t ∧ t ≤ GetProviderMaxTemperature p)) ∧
    ((fillChatDefaults cfg p (clampChatRequest req p)).maxTokens = none →
        ∀ n, cfg.maxTokens = some n → ¬(0 < n ∧ n ≤ GetProviderTokenLimit p)) := by
  have hTked := fillHTokensD_fields cfg p (fillChatTempDefault cfg p (clampChatRequest req p))
  have hTmp := fillHTempD_fields cfg p (clampChatRequest req p)
  unfold fillChatDefaults
  refine ⟨?_, ?_, ?_, ?_, ?_, ?_⟩
  · rw [hTked.1, hTmp.1, clampH_messages]
  · rw [hTked.2.2, hTmp.2.2, clampH_stream]
  · intro u hu
    rw [hTked.2.1] at hu
    rcases fillHTempD_temp_some_inv cfg p _ u hu with hc | hb
    · exact clampH_temp_bound req p u hc
    · exact hb
  · intro m hm
    rcases fillHTokensD_tokens_some_inv cfg p _ m hm with hc | hb
    · rw [hTmp.2.1] at hc
      exact clampH_tokens_bound req p m hc
    · exact hb
  · intro hnone
    rw [hTked.2.1] at hnone
    exact (fillHTempD_temp_none_inv cfg p _ hnone).2
  · intro hnone
    exact (fillHTokensD_tokens_none_inv cfg p _ hnone).2

/-- Characterization of successful structural validation of a chat
request. -/
theorem validateH_ok_iff (req : ChatRequest) :
    ValidateChatRequest req = .ok () ↔
      (¬req.messages.length = 0 ∧
       validateMessagesFrom req.messages 0 = .ok () ∧
       (∀ t, req.temperature = some t → 0 ≤ t) ∧
       (∀ n, req.maxTokens = some n → 0 < n)) := by
  unfold ValidateChatRequest
  by_cases hl : req.messages.length = 0 <;>
    cases hv : validateMessagesFrom req.messages 0 <;>
      cases ht : req.temperature <;> cases hk : req.maxTokens <;>
        simp_all [Bind.bind, Except.bind, pure, Except.pure, not_lt, not_le] <;>
          split_ifs <;> simp_all [not_lt, not_le]

/-- Inversion of a successful completion-request normalization. -/
theorem normalizeC_ok_inv (p : String) (cfg : Config) (req out : CompletionRequest)
    (h : validateAndNormalizeCompletionRequest p cfg req = .ok out) :
    ValidateCompletionRequest req = .ok () ∧
    out = fillCompletionDefaults cfg p (clampCompletionRequest req p) := by
  unfold validateAndNormalizeCompletionRequest at h
  cases hv : ValidateCompletionRequest req with
  | error e => rw [hv] at h; exact absurd h (by simp)
  | ok u =>
      cases u
      rw [hv] at h
      simp only [Except.ok.injEq] at h
      exact ⟨rfl, h.symm⟩

/-- Inversion of a successful chat-request normalization. -/
theorem normalizeH_ok_inv (p : String) (cfg : Config) (req out : ChatRequest)
    (h : validateAndNormalizeChatRequest p cfg req = .ok out) :
    ValidateChatRequest req = .ok () ∧
    validateConversationStructure p req.messages = .ok () ∧
    out = fillChatDefaults cfg p (clampChatRequest req p) := by
  unfold validateAndNormalizeChatRequest at h
  cases hv : ValidateChatRequest req with
  | error e => rw [hv] at h; exact absurd h (by simp)
  | ok u =>
      cases u
      rw [hv] at h
      cases hs : validateConversationStructure p req.messages with
      | error e => rw [hs] at h; exact absurd h (by simp)
      | ok w =>
          cases w
          rw [hs] at h
          simp only [Except.ok.injEq] at h
          exact ⟨rfl, rfl, h.symm⟩

/-! ### Claims about normalization -/

/-- Claim C4: normalization is idempotent — for any request (completion or
chat) on which the validate-clamp-default-fill pipeline succeeds, running
the pipeline again on its output returns that output unchanged. -/
theorem claim_C4 (p : String) (cfg : Config) :
    (∀ req out, validateAndNormalizeCompletionRequest p cfg req = .ok out →
       validateAndNormalizeCompletionRequest p cfg out = .ok out) ∧
    (∀ req out, validateAndNormalizeChatRequest p cfg req = .ok out →
       validateAndNormalizeChatRequest p cfg out = .ok out) := by
  constructor
  · intro req out h
    obtain ⟨hv, hout⟩ := normalizeC_ok_inv p cfg req out h
    obtain ⟨hpr, hsm, hstop, htb, hkb, htn, hkn⟩ := normalizedC_spec p cfg req
    rw [← hout] at hpr hsm hstop htb hkb htn hkn
    have hvreq := (validateC_ok_iff req).1 hv
    have hv2 : ValidateCompletionRequest out = .ok () :=
      (validateC_ok_iff out).2
        ⟨by rw [hpr]; exact hvreq.1,
         fun t ht' => (htb t ht').1,
         fun n hn' => (hkb n hn').1⟩
    have hcl : clampCompletionRequest out p = out := clampC_id out p htb hkb hstop
    have hft : fillTempDefault cfg p out = out := by
      cases hot : out.temperature with
      | some t => exact fillTempD_some cfg p out t hot
      | none => exact fillTempD_skip cfg p out hot (htn hot)
    have hfk : fillTokensDefault cfg p out = out := by
      cases hok : out.maxTokens with
      | some n => exact fillTokensD_some cfg p out n hok
      | none => exact fillTokensD_skip cfg p out hok (hkn hok)
    unfold validateAndNormalizeCompletionRequest
    rw [hv2, hcl]
    unfold fillCompletionDefaults
    rw [hft, hfk]
  · intro req out h
    obtain ⟨hv, hs, hout⟩ := normalizeH_ok_inv p cfg req out h
    obtain ⟨hms, hsm, htb, hkb, htn, hkn⟩ := normalizedH_spec p cfg req
    rw [← hout] at hms hsm htb hkb htn hkn
    have hvreq := (validateH_ok_iff req).1 hv
    have hv2 : ValidateChatRequest out = .ok () :=
      (validateH_ok_iff out).2
        ⟨by rw [hms]; exact hvreq.1,
         by rw [hms]; exact hvreq.2.1,
         fun t ht' => (htb t ht').1,
         fun n hn' => (hkb n hn').1⟩
    have hcl : clampChatRequest out p = out := clampH_id out p htb hkb
    have hft : fillChatTempDefault cfg p out = out := by
      cases hot : out.temperature with
      | some t => exact fillHTempD_some cfg p out t hot
      | none => exact fillHTempD_skip cfg p out hot (htn hot)
    have hfk : fillChatTokensDefault cfg p out = out := by
      cases hok : out.maxTokens with
      | some n => exact fillHTokensD_some cfg p out n hok
      | none => exact fillHTokensD_skip cfg p out hok (hkn hok)
    unfold validateAndNormalizeChatRequest
    rw [hv2, hms, hs, hcl]
    unfold fillChatDefaults
    rw [hft, hfk]

/-- Witness for claim C4: a concrete completion and a concrete chat request
whose normalized outputs are fixed points of the pipeline. -/
theorem claim_C4_witness :
    validateAndNormalizeCompletionRequest "openai" ⟨"sk-w", "", 0, 3, none, some 512⟩
        ⟨"hi", none, some 512, [], false⟩ = .ok ⟨"hi", none, some 512, [], false⟩ ∧
    validateAndNormalizeChatRequest "openai" ⟨"sk-w", "", 0, 3, none, some 512⟩
        ⟨[⟨"user", "Hello"⟩], none, some 512, false⟩ =
      .ok ⟨[⟨"user", "Hello"⟩], none, some 512, false⟩ :=
  ⟨(claim_C4 "openai" ⟨"sk-w", "", 0, 3, none, some 512⟩).1
      ⟨"hi", none, none, [], false⟩ ⟨"hi", none, some 512, [], false⟩ rfl,
   (claim_C4 "openai" ⟨"sk-w", "", 0, 3, none, some 512⟩).2
      ⟨[⟨"user", "Hello"⟩], none, none, false⟩ ⟨[⟨"user", "Hello"⟩], none, some 512, false⟩ rfl⟩

/-- Claim C5: after a successful normalization a present temperature lies
in [0, providerMaxTemperature] and a present maxTokens in
(0, providerTokenLimit], for completion and chat requests alike; and the
quoted clamping instances hold: 2.5 → 2.0 for OpenAI, 1.5 → 1.0 for
Anthropic, 10000 → 4096 for OpenAI, 200000 → 100000 for Anthropic. -/
theorem claim_C5 (p : String) (cfg : Config) (req : CompletionRequest) (creq : ChatRequest) :
    (∀ out, validateAndNormalizeCompletionRequest p cfg req = .ok out →
        (∀ t, out.temperature = some t → 0 ≤ t ∧ t ≤ GetProviderMaxTemperature p) ∧
        (∀ n, out.maxTokens = some n → 0 < n ∧ n ≤ GetProviderTokenLimit p)) ∧
    (∀ out, validateAndNormalizeChatRequest p cfg creq = .ok out →
        (∀ t, out.temperature = some t → 0 ≤ t ∧ t ≤ GetProviderMaxTemperature p) ∧
        (∀ n, out.maxTokens = some n → 0 < n ∧ n ≤ GetProviderTokenLimit p)) ∧
    (clampCompletionRequest ⟨"hello", some (5 / 2), none, [], false⟩ "openai").temperature
      = some 2 ∧
    (clampCompletionRequest ⟨"hello", some (3 / 2), none, [], false⟩ "anthropic").temperature
      = some 1 ∧
    (clampCompletionRequest ⟨"hello", none, some 10000, [], false⟩ "openai").maxTokens
      = some 4096 ∧
    (clampCompletionRequest ⟨"hello", none, some 200000, [], false⟩ "anthropic").maxTokens
      = some 100000 := by
  refine ⟨?_, ?_, ?_, ?_, ?_, ?_⟩
  · intro out h
    obtain ⟨hv, hout⟩ := normalizeC_ok_inv p cfg req out h
    obtain ⟨hpr, hsm, hstop, htb, hkb, htn, hkn⟩ := normalizedC_spec p cfg req
    rw [← hout] at htb hkb
    exact ⟨htb, hkb⟩
  · intro out h
    obtain ⟨hv, hs, hout⟩ := normalizeH_ok_inv p cfg creq out h
    obtain ⟨hms, hsm, htb, hkb, htn, hkn⟩ := normalizedH_spec p cfg creq
    rw [← hout] at htb hkb
    exact ⟨htb, hkb⟩
  · norm_num [clampCompletionRequest, GetProviderMaxTemperature, ProviderOpenAI,
      ProviderAnthropic, ProviderGoogle]
  · have h1 : ¬(("anthropic" : String) = "openai") := by decide
    norm_num [clampCompletionRequest, GetProviderMaxTemperature, ProviderOpenAI,
      ProviderAnthropic, ProviderGoogle, h1]
  · norm_num [clampCompletionRequest, GetProviderTokenLimit, GetDefaultMaxTokens,
      ProviderOpenAI, ProviderAnthropic, ProviderGoogle]
  · have h1 : ¬(("anthropic" : String) = "openai") := by decide
    norm_num [clampCompletionRequest, GetProviderTokenLimit, GetDefaultMaxTokens,
      ProviderOpenAI, ProviderAnthropic, ProviderGoogle, h1]

/-- Witness for claim C5 on a concrete successful normalization. -/
theorem claim_C5_witness :
    0 < (4096 : Int) ∧ (4096 : Int) ≤ GetProviderTokenLimit "openai" :=
  ((claim_C5 "openai" ⟨"sk-w", "", 0, 3, none, none⟩
      ⟨"hi", none, some 10000, [], false⟩ ⟨[⟨"user", "Hello"⟩], none, none, false⟩).1
    ⟨"hi", none, some 4096, [], false⟩ rfl).2 4096 rfl

/-- Claim C8: when temperature or maxTokens is absent from the request, the
default-fill step copies the config default exactly when that default
already lies within the provider's range, and drops it entirely (the field
stays unset) when it is out of range — for completion and chat requests. -/
theorem claim_C8 (p : String) (cfg : Config) (req : CompletionRequest) (creq : ChatRequest)
    (t : Rat) (n : Int) :
    (req.temperature = none → cfg.temperature = some t →
       ((0 ≤ t ∧ t ≤ GetProviderMaxTemperature p) →
          (fillCompletionDefaults cfg p (clampCompletionRequest req p)).temperature = some t) ∧
       (¬(0 ≤ t ∧ t ≤ GetProviderMaxTemperature p) →
          (fillCompletionDefaults cfg p (clampCompletionRequest req p)).temperature = none)) ∧
    (req.maxTokens = none → cfg.maxTokens = some n →
       ((0 < n ∧ n ≤ GetProviderTokenLimit p) →
          (fillCompletionDefaults cfg p (clampCompletionRequest req p)).maxTokens = some n) ∧
       (¬(0 < n ∧ n ≤ GetProviderTokenLimit p) →
          (fillCompletionDefaults cfg p (clampCompletionRequest req p)).maxTokens = none)) ∧
    (creq.temperature = none → cfg.temperature = some t →
       ((0 ≤ t ∧ t ≤ GetProviderMaxTemperature p) →
          (fillChatDefaults cfg p (clampChatRequest creq p)).temperature = some t) ∧
       (¬(0 ≤ t ∧ t ≤ GetProviderMaxTemperature p) →
          (fillChatDefaults cfg p (clampChatRequest creq p)).temperature = none)) ∧
    (creq.maxTokens = none → cfg.maxTokens = some n →
       ((0 < n ∧ n ≤ GetProviderTokenLimit p) →
          (fillChatDefaults cfg p (clampChatRequest creq p)).maxTokens = some n) ∧
       (¬(0 < n ∧ n ≤ GetProviderTokenLimit p) →
          (fillChatDefaults cfg p (clampChatRequest creq p)).maxTokens = none)) := by
  refine ⟨?_, ?_, ?_, ?_⟩
  · intro hr hc
    have hcl : (clampCompletionRequest req p).temperature = none :=
      (clampC_temp_none_iff req p).2 hr
    constructor
    · intro hin
      unfold fillCompletionDefaults
      rw [(fillTokensD_fields cfg p _).2.1, fillTempD_fill cfg p _ t hcl hc hin]
    · intro hout
      unfold fillCompletionDefaults
      rw [(fillTokensD_fields cfg p _).2.1,
          fillTempD_skip cfg p _ hcl
            (by intro s hs; rw [hc] at hs; rw [Option.some_inj] at hs; exact hs ▸ hout)]
      exact hcl
  · intro hr hc
    have hcl : (clampCompletionRequest req p).maxTokens = none :=
      (clampC_tokens_none_iff req p).2 hr
    have hwt : (fillTempDefault cfg p (clampCompletionRequest req p)).maxTokens = none := by
      rw [(fillTempD_fields cfg p _).2.1]
      exact hcl
    constructor
    · intro hin
      unfold fillCompletionDefaults
      rw [fillTokensD_fill cfg p _ n hwt hc hin]
    · intro hout
      unfold fillCompletionDefaults
      rw [fillTokensD_skip cfg p _ hwt
            (by intro s hs; rw [hc] at hs; rw [Option.some_inj] at hs; exact hs ▸ hout)]
      exact hwt
  · intro hr hc
    have hcl : (clampChatRequest creq p).temperature = none :=
      (clampH_temp_none_iff creq p).2 hr
    constructor
    · intro hin
      unfold fillChatDefaults
      rw [(fillHTokensD_fields cfg p _).2.1, fillHTempD_fill cfg p _ t hcl hc hin]
    · intro hout
      unfold fillChatDefaults
      rw [(fillHTokensD_fields cfg p _).2.1,
          fillHTempD_skip cfg p _ hcl
            (by intro s hs; rw [hc] at hs; rw [Option.some_inj] at hs; exact hs ▸ hout)]
      exact hcl
  · intro hr hc
    have hcl : (clampChatRequest creq p).maxTokens = none :=
      (clampH_tokens_none_iff creq p).2 hr
    have hwt : (fillChatTempDefault cfg p (clampChatRequest creq p)).maxTokens = none := by
      rw [(fillHTempD_fields cfg p _).2.1]
      exact hcl
    constructor
    · intro hin
      unfold fillChatDefaults
      rw [fillHTokensD_fill cfg p _ n hwt hc hin]
    · intro hout
      unfold fillChatDefaults
      rw [fillHTokensD_skip cfg p _ hwt
            (by intro s hs; rw [hc] at hs; rw [Option.some_inj] at hs; exact hs ▸ hout)]
      exact hwt

/-- Witness for claim C8: with provider OpenAI, a config default
temperature of 1 (in range) is copied in, while a config default maxTokens
of 10000 (beyond OpenAI's 4096 limit) is dropped instead of clamped. -/
theorem claim_C8_witness :
    (fillCompletionDefaults ⟨"sk-w", "", 0, 3, some 1, some 10000⟩ "openai"
        (clampCompletionRequest ⟨"hi", none, none, [], false⟩ "openai")).temperature = some 1 ∧
    (fillCompletionDefaults ⟨"sk-w", "", 0, 3, some 1, some 10000⟩ "openai"
        (clampCompletionRequest ⟨"hi", none, none, [], false⟩ "openai")).maxTokens = none := by
  have h := claim_C8 "openai" ⟨"sk-w", "", 0, 3, some 1, some 10000⟩
    ⟨"hi", none, none, [], false⟩ ⟨[⟨"user", "Hello"⟩], none, none, false⟩ 1 10000
  refine ⟨(h.1 rfl rfl).1 ?_, (h.2.1 rfl rfl).2 ?_⟩
  · constructor <;> norm_num [GetProviderMaxTemperature, ProviderOpenAI]
  · norm_num [GetProviderTokenLimit, ProviderOpenAI]

/-! ### Claims about the transport retry loop -/

/-- Claim C1 counterexample: a client configured with `Config.maxRetries = 0`
gets an adapter-built transport whose retry budget is the default 3, so a
run of retryable failures performs 4 HTTP attempts, not the claimed
`0 + 1 = 1`. -/
theorem claim_C1_counterexample :
    adapterMaxRetries 0 = 3 ∧
    (doWithRetry (fun _ => .transportError) (adapterMaxRetries 0).toNat).doCalls = 4 ∧
    ¬((doWithRetry (fun _ => .transportError) (adapterMaxRetries 0).toNat).doCalls ≤ 0 + 1) := by
  refine ⟨rfl, rfl, ?_⟩
  intro hle
  rw [show (doWithRetry (fun _ => .transportError) (adapterMaxRetries 0).toNat).doCalls = 4
      from rfl] at hle
  omega

/-- Claim C1 (amended): the attempt counter starts at 0 and the transport
loop performs at most `maxRetries + 1` HTTP attempts for its configured
budget; the adapter constructor passes `Config.maxRetries = n` through
unchanged for `n ≥ 1` but substitutes the default 3 when `n = 0`, so the
`n + 1` bound holds for `n ≥ 1` while `n = 0` allows up to 4 attempts. -/
theorem claim_C1 (doFn : Nat → AttemptOutcome) (mr : Nat) :
    (doWithRetry doFn mr).doCalls ≤ mr + 1 ∧
    (∀ n : Int, 1 ≤ n → adapterMaxRetries n = n) ∧
    adapterMaxRetries 0 = 3 := by
  refine ⟨?_, ?_, rfl⟩
  · simpa [doWithRetry] using retryLoop_doCalls_le doFn mr (mr + 1) 0 0 0
  · intro n hn
    unfold adapterMaxRetries
    rw [if_neg (by omega)]

/-- Witness for claim C1 at a concrete budget. -/
theorem claim_C1_witness :
    (doWithRetry (fun _ => AttemptOutcome.response 500) 3).doCalls ≤ 3 + 1 ∧
    adapterMaxRetries 5 = 5 :=
  ⟨(claim_C1 (fun _ => AttemptOutcome.response 500) 3).1,
   (claim_C1 (fun _ => AttemptOutcome.response 500) 3).2.1 5 (by norm_num)⟩

/-- Claim C2 counterexample: status 501 is in the 5xx range but is not
retried — the loop terminates after a single attempt and returns the 501
response as-is even with retries remaining. -/
theorem claim_C2_counterexample :
    shouldRetryStatus 501 = false ∧ (500 ≤ (501 : Int) ∧ (501 : Int) < 600) ∧
    doWithRetry (fun _ => .response 501) 3 = ⟨.success 501, 1, 0⟩ :=
  ⟨rfl, by norm_num, rfl⟩

/-- Claim C2 (amended): the retry loop continues (when attempts remain)
exactly for the statuses 429, 500, 502, 503 and 504 — not for every 5xx —
and for every other status it terminates at once, returning the response
as-is after a single attempt with no backoff sleep. -/
theorem claim_C2 (s : Int) (doFn : Nat → AttemptOutcome) (mr : Nat) :
    (shouldRetryStatus s = true ↔ (s = 429 ∨ s = 500 ∨ s = 502 ∨ s = 503 ∨ s = 504)) ∧
    (doFn 0 = .response s → shouldRetryStatus s = false →
       doWithRetry doFn mr = ⟨.success s, 1, 0⟩) ∧
    (doFn 0 = .response s → shouldRetryStatus s = true → 1 ≤ mr →
       2 ≤ (doWithRetry doFn mr).doCalls) := by
  refine ⟨?_, ?_, ?_⟩
  · simp only [shouldRetryStatus, Bool.or_eq_true, beq_iff_eq]
    tauto
  · intro h0 hs
    unfold doWithRetry retryLoop
    rw [h0]
    dsimp only
    rw [if_neg (by simp [hs])]
  · intro h0 hs hmr
    unfold doWithRetry retryLoop
    rw [h0]
    dsimp only
    rw [if_pos ⟨hs, by omega⟩]
    exact retryLoop_doCalls_one_le doFn mr mr 1 1 _ (by omega)

/-- Witness for claim C2 at concrete statuses 418 and 503. -/
theorem claim_C2_witness :
    doWithRetry (fun _ => AttemptOutcome.response 418) 3 = ⟨.success 418, 1, 0⟩ ∧
    2 ≤ (doWithRetry (fun _ => AttemptOutcome.response 503) 3).doCalls :=
  ⟨(claim_C2 418 (fun _ => AttemptOutcome.response 418) 3).2.1 rfl rfl,
   (claim_C2 503 (fun _ => AttemptOutcome.response 503) 3).2.2 rfl rfl (by norm_num)⟩

/-- Claim C3 counterexample: attempt 0 gets a retryable 500 and the caller's
cancellation fires during the first backoff sleep (every later `Do` call
sees a cancelled context), yet the loop does not abort: it completes all
three backoff sleeps (1s + 2s + 4s = 7s) and issues all three remaining
attempts before failing — 4 `Do` calls, not 1. -/
theorem claim_C3_counterexample :
    doWithRetryCtx (fun i => if i = 0 then .response 500 else .response 200)
        (fun i => decide (1 ≤ i)) 3 =
      ⟨.failure "HTTP request failed after 4 attempts", 4, 7000000000⟩ ∧
    (4 : Nat) ≠ 1 ∧ ((7000000000 : Int) ≠ 0) :=
  ⟨rfl, by norm_num, by norm_num⟩

/-- Claim C3 (amended): the wait before retrying after attempt `attempt` is
`min(30s, 1s * 2^attempt)` (stated for `attempt ≤ 33`, below the int64
overflow of Go's duration arithmetic), but the backoff sleep is not
interruptible: the loop never consults the cancellation signal itself, so
when cancellation fires after the first attempt every backoff sleep still
completes in full and every remaining attempt is still issued; the
cancellation surfaces only through the failures of those attempts once the
attempt budget is exhausted. -/
theorem claim_C3 (outcomes : Nat → AttemptOutcome) (m : Nat)
    (h0 : outcomes 0 = .transportError) :
    (∀ attempt : Nat, attempt ≤ 33 →
        sleepNs attempt = min (30 * 1000000000) (2 ^ attempt * 1000000000)) ∧
    (doWithRetryCtx outcomes (fun i => decide (1 ≤ i)) m).doCalls = m + 1 ∧
    (doWithRetryCtx outcomes (fun i => decide (1 ≤ i)) m).sleptNs =
      ∑ i ∈ Finset.range m, sleepNs i ∧
    (doWithRetryCtx outcomes (fun i => decide (1 ≤ i)) m).result =
      .failure ("HTTP request failed after " ++ toString (m + 1) ++ " attempts") := by
  have hall : ∀ i, (fun i => if (decide (1 ≤ i) : Bool) then AttemptOutcome.transportError
      else outcomes i) i = .transportError := by
    intro i
    cases i with
    | zero => simpa using h0
    | succ k => simp
  have hrun := retryLoop_all_transport_errors _ m hall (m + 1) 0 0 0 (by omega)
  have e1 : doWithRetryCtx outcomes (fun i => decide (1 ≤ i)) m =
      ⟨.failure ("HTTP request failed after " ++ toString (m + 1) ++ " attempts"),
       0 + (m + 1), 0 + ∑ i ∈ Finset.Ico 0 m, sleepNs i⟩ := hrun
  refine ⟨fun a ha => sleepNs_eq_min ha, ?_, ?_, ?_⟩
  · rw [e1]
    show 0 + (m + 1) = m + 1
    omega
  · rw [e1]
    show (0 : Int) + ∑ i ∈ Finset.Ico 0 m, sleepNs i = ∑ i ∈ Finset.range m, sleepNs i
    rw [Finset.range_eq_Ico]
    ring
  · rw [e1]

/-- Witness for claim C3: with cancellation fired after attempt 0 and a
budget of 3 retries, all 4 attempts are still issued. -/
theorem claim_C3_witness :
    (doWithRetryCtx (fun _ => AttemptOutcome.transportError)
        (fun i => decide (1 ≤ i)) 3).doCalls = 3 + 1 :=
  (claim_C3 (fun _ => AttemptOutcome.transportError) 3 rfl).2.1

/-! ### Claims about the error taxonomy -/

/-- Claim C7: an `Error` is retryable if and only if its kind is
`rateLimit` or `network`; every other kind is not retryable. -/
theorem claim_C7 (e : AIError) :
    e.IsRetryable = true ↔ (e.kind = .rateLimit ∨ e.kind = .network) := by
  cases h : e.kind <;> simp [AIError.IsRetryable, h]

theorem getRetryAfter_eq_60 (retryAfterValue : String) :
    getRetryAfter retryAfterValue = some 60 := by
  unfold getRetryAfter parseRetryAfterSeconds
  by_cases h : retryAfterValue = "" <;> simp [h]

/-- Claim C6 counterexample: status 404 is a 4xx other than 401/403/429, so
the claim requires kind `validation` from the adapter's body classification
as well — but the Anthropic adapter classifies every status outside
401/403/429/400 as `provider`. -/
theorem claim_C6_counterexample :
    MapHTTPStatusToErrorType 404 = .validation ∧
    anthropicParseErrorResponse 404 (.ok "not_found_error" "model not found") "" =
      .classified ⟨.provider, "model not found", "not_found_error", "anthropic", none, none⟩ ∧
    ErrorKind.provider ≠ ErrorKind.validation :=
  ⟨rfl, rfl, by decide⟩

/-- Claim C6 (amended): the generic mapper behaves as claimed (401/403 →
authentication, 429 → rateLimit, every other 4xx → validation, 5xx →
provider, anything below 400 — in particular 0, no response — → network),
but the Anthropic adapter's error-body classification maps only 400 to
validation: every status outside 401/403/429/400 — including other 4xx —
becomes `provider`. -/
theorem claim_C6 (s : Int) (etype emessage retryAfterValue : String) :
    (s = 401 ∨ s = 403 → MapHTTPStatusToErrorType s = .authentication) ∧
    (s = 429 → MapHTTPStatusToErrorType s = .rateLimit) ∧
    (400 ≤ s → s < 500 → s ≠ 401 → s ≠ 403 → s ≠ 429 →
       MapHTTPStatusToErrorType s = .validation) ∧
    (500 ≤ s → MapHTTPStatusToErrorType s = .provider) ∧
    (s < 400 → MapHTTPStatusToErrorType s = .network) ∧
    (s = 401 ∨ s = 403 → anthropicParseErrorResponse s (.ok etype emessage) retryAfterValue =
       .classified ⟨.authentication,
         (if emessage = "" then "Unknown Anthropic error" else emessage),
         etype, "anthropic", none, none⟩) ∧
    (s = 429 → anthropicParseErrorResponse s (.ok etype emessage) retryAfterValue =
       .classified ⟨.rateLimit,
         (if emessage = "" then "Unknown Anthropic error" else emessage),
         etype, "anthropic", some 60, none⟩) ∧
    (s = 400 → anthropicParseErrorResponse s (.ok etype emessage) retryAfterValue =
       .classified ⟨.validation,
         (if emessage = "" then "Unknown Anthropic error" else emessage),
         etype, "anthropic", none, none⟩) ∧
    (s ≠ 401 → s ≠ 403 → s ≠ 429 → s ≠ 400 →
       anthropicParseErrorResponse s (.ok etype emessage) retryAfterValue =
       .classified ⟨.provider,
         (if emessage = "" then "Unknown Anthropic error" else emessage),
         etype, "anthropic", none, none⟩) := by
  refine ⟨?_, ?_, ?_, ?_, ?_, ?_, ?_, ?_, ?_⟩
  · rintro (rfl | rfl) <;> rfl
  · rintro rfl; rfl
  · intro h1 h2 h3 h4 h5
    unfold MapHTTPStatusToErrorType
    rw [if_neg (by tauto), if_neg h5, if_pos ⟨h1, h2⟩]
  · intro h
    unfold MapHTTPStatusToErrorType
    rw [if_neg (by omega), if_neg (by omega), if_neg (by omega), if_pos h]
  · intro h
    unfold MapHTTPStatusToErrorType
    rw [if_neg (by omega), if_neg (by omega), if_neg (by omega), if_neg (by omega)]
  · rintro (rfl | rfl) <;>
      · unfold anthropicParseErrorResponse
        dsimp only
        rw [if_pos (by norm_num)]
  · rintro rfl
    unfold anthropicParseErrorResponse
    dsimp only
    rw [if_neg (by norm_num), if_pos rfl, getRetryAfter_eq_60]
  · rintro rfl
    unfold anthropicParseErrorResponse
    dsimp only
    rw [if_neg (by norm_num), if_neg (by norm_num), if_pos rfl]
  · intro h1 h2 h3 h4
    unfold anthropicParseErrorResponse
    dsimp only
    rw [if_neg (by tauto), if_neg h3, if_neg h4]

/-- Witness for claim C6 at status 422: the generic mapper yields
validation, the Anthropic adapter yields provider. -/
theorem claim_C6_witness :
    MapHTTPStatusToErrorType 422 = .validation ∧
    anthropicParseErrorResponse 422 (.ok "invalid_request_error" "bad field") "" =
      .classified ⟨.provider, "bad field", "invalid_request_error", "anthropic", none, none⟩ := by
  have h := claim_C6 422 "invalid_request_error" "bad field" ""
  refine ⟨h.2.2.1 (by norm_num) (by norm_num) (by norm_num) (by norm_num) (by norm_num), ?_⟩
  have h9 := h.2.2.2.2.2.2.2.2 (by norm_num) (by norm_num) (by norm_num) (by norm_num)
  simpa using h9

/-- Claim C9 counterexample: an empty message list does fail locally with a
validation error, but its message is "request validation failed: messages
are required" — it does not contain the claimed substring "at least one
message" (that text lives in `validateConversationStructure`, which is
unreachable for an empty list because `ValidateChatRequest` rejects it
first). -/
theorem claim_C9_counterexample :
    clientChatComplete "anthropic" ⟨"sk-ant-test", "", 0, 3, none, none⟩
        ⟨[], none, none, false⟩ =
      .localError ⟨.validation, "request validation failed: messages are required", "",
        "anthropic", none, none⟩ ∧
    strContains "request validation failed: messages are required" "at least one message"
      = false :=
  ⟨rfl, rfl⟩

/-- Claim C9 (amended): for every ChatRequest whose message list is empty,
ChatComplete fails before any adapter (network) activity with a validation
error whose message contains the substring "messages are required" (not
"at least one message"). -/
theorem claim_C9 (provider : String) (cfg : Config) (req : ChatRequest)
    (h : req.messages = []) :
    clientChatComplete provider cfg req =
      .localError ⟨.validation, "request validation failed: messages are required", "",
        provider, none, none⟩ ∧
    strContains "request validation failed: messages are required" "messages are required"
      = true := by
  refine ⟨?_, rfl⟩
  have hv : ValidateChatRequest req = .error "messages are required" := by
    unfold ValidateChatRequest
    rw [h]
    rfl
  unfold clientChatComplete validateAndNormalizeChatRequest
  rw [hv]
  rfl

/-- Witness for claim C9 on a concrete empty chat request. -/
theorem claim_C9_witness :
    clientChatComplete "openai" ⟨"sk-test-key", "", 0, 3, none, none⟩
        ⟨[], none, none, false⟩ =
      .localError ⟨.validation, "request validation failed: messages are required", "",
        "openai", none, none⟩ ∧
    strContains "request validation failed: messages are required" "messages are required"
      = true :=
  claim_C9 "openai" ⟨"sk-test-key", "", 0, 3, none, none⟩ ⟨[], none, none, false⟩ rfl

/-- Claim C10: every Anthropic rate-limit classification (status 429 with a
decodable body) carries `retryAfter = 60` seconds, for every value of the
`Retry-After` header, including its absence (the empty string): the header
value is never actually parsed. -/
theorem claim_C10 (etype emessage retryAfterValue : String) :
    anthropicParseErrorResponse 429 (.ok etype emessage) retryAfterValue =
      .classified ⟨.rateLimit,
        (if emessage = "" then "Unknown Anthropic error" else emessage),
        etype, "anthropic", some 60, none⟩ := by
  unfold anthropicParseErrorResponse getRetryAfter parseRetryAfterSeconds
  by_cases h : retryAfterValue = "" <;> simp [h]

end AIProviders
